import Mathlib

/-!
Shallow embedding of the stock-ledger core of `src/INVENTORY.py`.

The program is a Streamlit application over a SQLite database with tables
`items` and `stock_movements` (plus `users` and `suppliers`, which no claim
in scope touches).  We model the database state as Lean lists of records,
with SQLite `AUTOINCREMENT` primary keys rendered as explicit
`next_item_id` / `next_movement_id` counters, and model each helper
function of the source as a pure state transformer.

Modelling conventions:
* SQLite `INTEGER` columns are `Int` (`quantity` of a movement is signed).
* Primary keys are `Nat`.
* The `ts` column is `TEXT DEFAULT (datetime('now','localtime'))`; SQLite
  compares such strings lexicographically, which coincides with
  chronological order, so we model a timestamp as a `Nat` supplied by the
  caller (the clock read at insert time) and compare with `≤`.
* `unit_price` is a SQLite `REAL`; no claim in scope performs arithmetic
  on it, so it is modelled as `Int` (an opaque numeric payload here).
* A Python function returning `(ok, message)` becomes a Lean function
  returning `DB × Bool × String`.
-/

set_option linter.unusedVariables false

/-- Row of the `items` table (source lines 32-43): `id` (AUTOINCREMENT
primary key), unique `item_code`, descriptive fields, `unit_price`,
`min_stock` (the reorder threshold), cached `quantity`, `description`. -/
structure Item where
  id : Nat
  item_code : String
  name : String
  category : String
  unit_price : Int
  min_stock : Int
  quantity : Int
  description : String
deriving DecidableEq

/-- Row of the `stock_movements` table (source lines 46-57): `id`
(AUTOINCREMENT primary key), `item_id` foreign key, `movement_type`
(PURCHASE, DISPATCH, ADJUSTMENT, INITIAL), signed `quantity` (the delta:
positive for in, negative for out), `party`, `note`, timestamp `ts`. -/
structure Movement where
  id : Nat
  item_id : Nat
  movement_type : String
  quantity : Int
  party : String
  note : String
  ts : Nat
deriving DecidableEq

/-- The database state: the `items` and `stock_movements` tables in rowid
(insertion) order, plus the AUTOINCREMENT counters for their primary keys. -/
structure DB where
  items : List Item
  movements : List Movement
  next_item_id : Nat
  next_movement_id : Nat
deriving DecidableEq

/-- The freshly created database: both tables empty (source `create_tables`,
lines 17-86; the `users` bootstrap row is out of scope). SQLite
AUTOINCREMENT starts at 1. -/
def empty_db : DB :=
  { items := [], movements := [], next_item_id := 1, next_movement_id := 1 }

/-- Source `get_items` (lines 142-146): `SELECT * FROM items`. -/
def get_items (db : DB) : List Item := db.items

/-- Source `create_item` (lines 148-162): `INSERT INTO items ...`; the
UNIQUE constraint on `item_code` raises `IntegrityError`, caught and turned
into `(False, "Item code must be unique")` with no mutation; otherwise the
row is inserted with a fresh AUTOINCREMENT `id` and the function returns
`(True, "Item created")`. -/
def create_item (db : DB) (item_code name category : String)
    (unit_price min_stock quantity : Int) (description : String) :
    DB × Bool × String :=
  if db.items.any (fun it => it.item_code == item_code) then
    (db, false, "Item code must be unique")
  else
    ({ db with
        items := db.items ++
          [{ id := db.next_item_id, item_code := item_code, name := name,
             category := category, unit_price := unit_price,
             min_stock := min_stock, quantity := quantity,
             description := description }],
        next_item_id := db.next_item_id + 1 },
      true, "Item created")

/-- Source `update_item` (lines 164-173): `UPDATE items SET name=?,
category=?, unit_price=?, min_stock=?, quantity=?, description=? WHERE
id=?`.  Note that the SET clause includes `quantity` and excludes
`item_code` and `id`. -/
def update_item (db : DB) (item_id : Nat) (name category : String)
    (unit_price min_stock quantity : Int) (description : String) : DB :=
  { db with
      items := db.items.map (fun it =>
        if it.id == item_id then
          { it with name := name, category := category,
                    unit_price := unit_price, min_stock := min_stock,
                    quantity := quantity, description := description }
        else it) }

/-- Source `delete_item_record` (lines 175-179): `DELETE FROM items WHERE
id=?`.  Only the `items` table is touched; `stock_movements` keeps every
row referencing the deleted item. -/
def delete_item_record (db : DB) (item_id : Nat) : DB :=
  { db with items := db.items.filter (fun it => it.id != item_id) }

/-- Source `log_stock_movement` (lines 183-192): `INSERT INTO
stock_movements (item_id, movement_type, quantity, party, note) VALUES
(...)`; `id` is a fresh AUTOINCREMENT key and `ts` defaults to the current
time, modelled as the caller-supplied clock value `ts`. -/
def log_stock_movement (db : DB) (item_id : Nat) (movement_type : String)
    (quantity : Int) (party note : String) (ts : Nat) : DB :=
  { db with
      movements := db.movements ++
        [{ id := db.next_movement_id, item_id := item_id,
           movement_type := movement_type, quantity := quantity,
           party := party, note := note, ts := ts }],
      next_movement_id := db.next_movement_id + 1 }

/-- Source `adjust_stock` (lines 194-216): look up the item's quantity
(`SELECT quantity FROM items WHERE id=?`); if no row, return `(False,
"Item not found")`; if `current + delta < 0`, return `(False, "Operation
would result in negative stock")` with no mutation; otherwise `UPDATE
items SET quantity=?` and then `log_stock_movement` with the delta, and
return `(True, "Stock updated")`. -/
def adjust_stock (db : DB) (item_id : Nat) (delta_qty : Int)
    (movement_type party note : String) (ts : Nat) : DB × Bool × String :=
  match db.items.find? (fun it => it.id == item_id) with
  | none => (db, false, "Item not found")
  | some row =>
    let new_qty := row.quantity + delta_qty
    if new_qty < 0 then
      (db, false, "Operation would result in negative stock")
    else
      let db1 : DB :=
        { db with
            items := db.items.map (fun it =>
              if it.id == item_id then { it with quantity := new_qty }
              else it) }
      (log_stock_movement db1 item_id movement_type delta_qty party note ts,
        true, "Stock updated")

/-- The sequence of DURABLE (committed) database states produced by one
call of `adjust_stock`, in order.  The source commits twice: once after
`UPDATE items SET quantity=?` (line 211, on the first connection, which is
then closed at line 212), and once inside `log_stock_movement` (line 191,
on a second connection).  So a successful call passes through the
intermediate committed state in which the quantity is updated but the
movement row does not exist yet; the failing paths commit nothing. -/
def adjust_stock_commits (db : DB) (item_id : Nat) (delta_qty : Int)
    (movement_type party note : String) (ts : Nat) : List DB :=
  match db.items.find? (fun it => it.id == item_id) with
  | none => [db]
  | some row =>
    let new_qty := row.quantity + delta_qty
    if new_qty < 0 then [db]
    else
      let db1 : DB :=
        { db with
            items := db.items.map (fun it =>
              if it.id == item_id then { it with quantity := new_qty }
              else it) }
      [db, db1, log_stock_movement db1 item_id movement_type delta_qty party note ts]

/-- One displayed row of `get_stock_movements` (columns of the SELECT at
source lines 221-222): movement id, the joined item's code and name, then
the movement's type, signed quantity, party, note and timestamp. -/
structure MovementRow where
  id : Nat
  item_code : String
  name : String
  movement_type : String
  quantity : Int
  party : String
  note : String
  ts : Nat
deriving DecidableEq

/-- The FROM/JOIN part of `get_stock_movements` (source lines 223-224):
`FROM stock_movements sm JOIN items i ON sm.item_id = i.id`, scanning
`stock_movements` in rowid order.  The inner join drops every movement
whose `item_id` matches no existing item row. -/
def join_items (db : DB) : List MovementRow :=
  db.movements.filterMap (fun m =>
    (db.items.find? (fun it => it.id == m.item_id)).map (fun it =>
      { id := m.id, item_code := it.item_code, name := it.name,
        movement_type := m.movement_type, quantity := m.quantity,
        party := m.party, note := m.note, ts := m.ts }))

/-- Descending-timestamp order on displayed rows: `a` may precede `b`
when `b.ts ≤ a.ts`.  This is the sort key of `ORDER BY sm.ts DESC` —
the timestamp only, no secondary key. -/
def ts_ge (a b : MovementRow) : Prop := b.ts ≤ a.ts

instance : DecidableRel ts_ge := fun a b => Nat.decLe b.ts a.ts

instance : IsTotal MovementRow ts_ge :=
  ⟨fun a b => Or.symm (Nat.le_total a.ts b.ts)⟩

instance : IsTrans MovementRow ts_ge :=
  ⟨fun _ _ _ h1 h2 => Nat.le_trans h2 h1⟩

/-- Source `get_stock_movements` (lines 218-231): the join above followed
by `ORDER BY sm.ts DESC LIMIT ?`.  The query has NO secondary sort key:
among rows with equal `ts` SQLite's order is unspecified.  We render the
sort deterministically as a stable sort of the scan (rowid) order by `ts`
descending; the claims proved below about tie order are claims about what
the query does and does not guarantee. -/
def get_stock_movements (db : DB) (limit : Nat) : List MovementRow :=
  ((join_items db).insertionSort ts_ge).take limit

/-- The low-stock filter used by the Dashboard (source line 377) and by
Reporting (source line 702): `items_df[items_df["quantity"] <=
items_df["min_stock"]]`. -/
def low_stock_df (items : List Item) : List Item :=
  items.filter (fun it => decide (it.quantity ≤ it.min_stock))

/-- The Item Management create flow (source lines 463-497), entered after
the admin gate: reject a blank item code or name; otherwise call
`create_item`; on success, if the initial quantity is positive, re-read
the items, find the new row by its (unique) code, and log an INITIAL
movement of that quantity with party "SYSTEM" and note "Initial stock".
The two quantity widgets are `st.number_input(..., min_value=0, step=1)`,
so `min_stock` and `quantity` reach the flow as non-negative integers,
modelled as `Nat`. -/
def create_flow (db : DB) (item_code name category : String)
    (unit_price : Int) (min_stock quantity : Nat) (description : String)
    (ts : Nat) : DB :=
  if item_code == "" || name == "" then db
  else
    let r := create_item db item_code name category unit_price
      (min_stock : Int) (quantity : Int) description
    let db1 := r.1
    if r.2.1 then
      if 0 < quantity then
        match (get_items db1).find? (fun it => it.item_code == item_code) with
        | some new_item =>
            log_stock_movement db1 new_item.id "INITIAL" (quantity : Int)
              "SYSTEM" "Initial stock" ts
        | none => db1
      else db1
    else db1

/-- The sequence of DURABLE (committed) database states of one run of the
Item Management create flow, in order.  `create_item` commits the item row
on its own connection (line 157) and closes it; the INITIAL movement, when
`quantity > 0`, is committed later by `log_stock_movement` (line 191) on a
fresh connection.  So a successful create with positive initial quantity
passes through the intermediate committed state in which the item row
exists with its nonzero quantity but no movement row exists. -/
def create_flow_commits (db : DB) (item_code name category : String)
    (unit_price : Int) (min_stock quantity : Nat) (description : String)
    (ts : Nat) : List DB :=
  if item_code == "" || name == "" then [db]
  else
    let r := create_item db item_code name category unit_price
      (min_stock : Int) (quantity : Int) description
    let db1 := r.1
    if r.2.1 then
      if 0 < quantity then
        match (get_items db1).find? (fun it => it.item_code == item_code) with
        | some new_item =>
            [db, db1,
             log_stock_movement db1 new_item.id "INITIAL" (quantity : Int)
               "SYSTEM" "Initial stock" ts]
        | none => [db, db1]
      else [db, db1]
    else [db]

/-- An operation of the create/adjust fragment of the application: either
the Item Management create flow or a call of `adjust_stock` (the Stock
Management and Dispatch screens both reduce to `adjust_stock`; their extra
sign checks on the delta only restrict which calls occur). -/
inductive Op where
  | create (item_code name category : String) (unit_price : Int)
      (min_stock quantity : Nat) (description : String) (ts : Nat)
  | adjust (item_id : Nat) (delta_qty : Int) (movement_type party note : String)
      (ts : Nat)

/-- Apply one operation to the database. -/
def apply_op (db : DB) : Op → DB
  | .create item_code name category unit_price min_stock quantity description ts =>
      create_flow db item_code name category unit_price min_stock quantity
        description ts
  | .adjust item_id delta_qty movement_type party note ts =>
      (adjust_stock db item_id delta_qty movement_type party note ts).1

/-- Run a sequence of operations from the empty database. -/
def run_ops (ops : List Op) : DB := (ops.foldl apply_op empty_db)

/-- Sum of the signed `quantity` (delta) of the movements whose `item_id`
is the given id: the ledger's running total for one item. -/
def ledger_sum (movements : List Movement) (item_id : Nat) : Int :=
  ((movements.filter (fun m => m.item_id == item_id)).map Movement.quantity).sum

/-- The spec's global invariant: every item's cached `quantity` equals the
sum of the deltas of all movements referencing it. -/
def quantity_invariant (db : DB) : Prop :=
  ∀ it ∈ db.items, it.quantity = ledger_sum db.movements it.id

instance (db : DB) : Decidable (quantity_invariant db) :=
  List.decidableBAll _ db.items

/-- Auxiliary bookkeeping facts maintained by the create/adjust fragment:
item ids are below the AUTOINCREMENT counter, every movement references
an id below the counter, and item ids are pairwise distinct (PRIMARY
KEY). -/
def ids_fresh (db : DB) : Prop :=
  (∀ it ∈ db.items, it.id < db.next_item_id) ∧
  (∀ m ∈ db.movements, m.item_id < db.next_item_id) ∧
  (db.items.map Item.id).Nodup

/-! ### Sample states used by witnesses and counterexamples -/

/-- A sample catalog row. -/
def sample_item : Item :=
  { id := 1, item_code := "ITM-0001", name := "Widget", category := "General",
    unit_price := 2, min_stock := 5, quantity := 10, description := "" }

/-- A sample ledger row matching `sample_item`'s quantity. -/
def sample_movement : Movement :=
  { id := 1, item_id := 1, movement_type := "INITIAL", quantity := 10,
    party := "SYSTEM", note := "Initial stock", ts := 1 }

/-- A database holding `sample_item` and its INITIAL movement. -/
def sample_db : DB :=
  { items := [sample_item], movements := [sample_movement],
    next_item_id := 2, next_movement_id := 2 }

/-- A database holding one item of quantity 0 and an empty ledger. -/
def sample_db0 : DB :=
  { items := [{ sample_item with quantity := 0 }], movements := [],
    next_item_id := 2, next_movement_id := 1 }

/-! ### Claim theorems -/

/-- C3: for every existing item and every delta with `quantity + delta < 0`,
`adjust_stock` returns the negative-stock error and mutates nothing: the
returned state is the input state, so no movement is created and no
quantity (nor anything else) changes. -/
theorem adjust_stock_negative_guard (db : DB) (item_id : Nat) (delta_qty : Int)
    (movement_type party note : String) (ts : Nat) (row : Item)
    (hfind : db.items.find? (fun it => it.id == item_id) = some row)
    (hneg : row.quantity + delta_qty < 0) :
    adjust_stock db item_id delta_qty movement_type party note ts =
      (db, false, "Operation would result in negative stock") := by
  unfold adjust_stock
  rw [hfind]
  simp [hneg]

/-- C3 witness: dispatching 12 units from a stock of 10 fails with the
negative-stock error and leaves the database untouched. -/
theorem adjust_stock_negative_guard_witness :
    sample_db.items.find? (fun it => it.id == 1) = some sample_item ∧
    sample_item.quantity + (-12) < 0 ∧
    adjust_stock sample_db 1 (-12) "DISPATCH" "Cust1" "" 2 =
      (sample_db, false, "Operation would result in negative stock") :=
  ⟨by decide, by decide,
    adjust_stock_negative_guard sample_db 1 (-12) "DISPATCH" "Cust1" "" 2
      sample_item (by decide) (by decide)⟩

/-- C4 counterexample: `update_item` DOES mutate the quantity field — the
SET clause of the source UPDATE statement (line 168) includes `quantity`.
Here the item stored with quantity 10 has quantity 7 after `update_item`
is called with quantity argument 7. -/
theorem update_item_changes_quantity_cex :
    sample_item ∈ sample_db.items ∧ sample_item.quantity = 10 ∧
    (update_item sample_db 1 "Widget" "General" 2 5 7 "").items.map
        Item.quantity = [7] := by
  decide

/-- C4 amended: `update_item` never mutates an item's `id` or `item_code`,
and never touches the movements table; but it sets `quantity` — along
with name, category, unit_price, min_stock and description — to the
supplied value. -/
theorem update_item_preserves_code_and_ledger (db : DB) (item_id : Nat)
    (name category : String) (unit_price min_stock quantity : Int)
    (description : String) :
    (update_item db item_id name category unit_price min_stock quantity
        description).items.map (fun it => (it.id, it.item_code)) =
      db.items.map (fun it => (it.id, it.item_code)) ∧
    (update_item db item_id name category unit_price min_stock quantity
        description).movements = db.movements := by
  constructor
  · simp only [update_item, List.map_map]
    apply List.map_congr_left
    intro a ha
    by_cases h : a.id == item_id
    · simp [Function.comp, h]
    · simp [Function.comp, h]
  · rfl

/-- C6: a second `create_item` with an already-used code fails with the
duplicate-code message and returns the state unchanged, so the first item
is unaffected. -/
theorem create_item_duplicate_code_rejected (db : DB) (code : String)
    (name1 category1 : String) (unit_price1 min_stock1 quantity1 : Int)
    (description1 : String) (name2 category2 : String)
    (unit_price2 min_stock2 quantity2 : Int) (description2 : String)
    (hok : (create_item db code name1 category1 unit_price1 min_stock1
        quantity1 description1).2.1 = true) :
    create_item (create_item db code name1 category1 unit_price1 min_stock1
        quantity1 description1).1 code name2 category2 unit_price2
        min_stock2 quantity2 description2 =
      ((create_item db code name1 category1 unit_price1 min_stock1 quantity1
          description1).1, false, "Item code must be unique") := by
  unfold create_item at hok ⊢
  by_cases h : db.items.any (fun it => it.item_code == code)
  · simp [h] at hok
  · simp [h, List.any_append]

/-- C6 witness: creating "ITM-0001" twice from the empty database fails on
the second call with the duplicate-code message and an unchanged state. -/
theorem create_item_duplicate_code_rejected_witness :
    (create_item empty_db "ITM-0001" "Widget" "General" 2 5 0 "").2.1 = true ∧
    create_item (create_item empty_db "ITM-0001" "Widget" "General" 2 5 0 "").1
        "ITM-0001" "Gadget" "Other" 3 1 4 "x" =
      ((create_item empty_db "ITM-0001" "Widget" "General" 2 5 0 "").1, false,
        "Item code must be unique") :=
  ⟨by decide,
    create_item_duplicate_code_rejected empty_db "ITM-0001" "Widget" "General"
      2 5 0 "" "Gadget" "Other" 3 1 4 "x" (by decide)⟩

/-- C8: an item is in the low-stock report exactly when its quantity is at
most its `min_stock` (reorder threshold); in particular quantity 5 with
threshold 5 is reported and quantity 6 with threshold 5 is not. -/
theorem low_stock_boundary :
    (∀ (items : List Item) (it : Item),
        it ∈ low_stock_df items ↔ it ∈ items ∧ it.quantity ≤ it.min_stock) ∧
    ({ sample_item with quantity := 5, min_stock := 5 } ∈
        low_stock_df [{ sample_item with quantity := 5, min_stock := 5 }]) ∧
    ({ sample_item with quantity := 6, min_stock := 5 } ∉
        low_stock_df [{ sample_item with quantity := 6, min_stock := 5 }]) := by
  refine ⟨fun items it => ?_, by decide, by decide⟩
  simp [low_stock_df, List.mem_filter]

/-- C2: the two writes of `adjust_stock` are NOT one all-or-nothing unit.
The source commits the quantity UPDATE on one connection (line 211) and
the movement INSERT on another (line 191 via `log_stock_movement`), so a
successful call passes through a durable intermediate state — here, after
adding 10 to an item of quantity 0 — in which the quantity is 10 but the
ledger is still empty, violating the quantity/ledger-sum invariant; only
the final state restores it. -/
theorem adjust_stock_commit_gap_violates_invariant :
    quantity_invariant sample_db0 ∧
    ¬ (∀ s ∈ adjust_stock_commits sample_db0 1 10 "PURCHASE" "Acme" "" 2,
        quantity_invariant s) ∧
    quantity_invariant (adjust_stock sample_db0 1 10 "PURCHASE" "Acme" "" 2).1 := by
  decide

/-- C5: creating an item with positive initial quantity is NOT atomic with
logging its INITIAL movement.  The completed flow does record an INITIAL
movement of exactly the initial quantity (final conjunct), but the item
insert is committed by `create_item`'s own connection (line 157) and the
movement only later by `log_stock_movement` (line 191), so the flow passes
through a durable intermediate state in which the item exists with
quantity 5 and the ledger has no entry for it. -/
theorem create_flow_commit_gap_lacks_initial_movement :
    quantity_invariant empty_db ∧
    ¬ (∀ s ∈ create_flow_commits empty_db "ITM-0001" "Widget" "General" 2 5 5 "" 1,
        quantity_invariant s) ∧
    (create_flow empty_db "ITM-0001" "Widget" "General" 2 5 5 "" 1).movements =
      [{ id := 1, item_id := 1, movement_type := "INITIAL", quantity := 5,
         party := "SYSTEM", note := "Initial stock", ts := 1 }] := by
  decide

/-! ### Movement history: ordering and the inner join -/

/-- A database with two movements that share a timestamp. -/
def tie_db : DB :=
  { items := [sample_item],
    movements :=
      [{ id := 1, item_id := 1, movement_type := "PURCHASE", quantity := 3,
         party := "A", note := "", ts := 5 },
       { id := 2, item_id := 1, movement_type := "PURCHASE", quantity := 4,
         party := "B", note := "", ts := 5 }],
    next_item_id := 2, next_movement_id := 3 }

/-- A database with three movements M1, M2, M3 inserted in that order with
strictly increasing timestamps. -/
def ordered_db : DB :=
  { items := [sample_item],
    movements :=
      [{ id := 1, item_id := 1, movement_type := "PURCHASE", quantity := 1,
         party := "", note := "", ts := 1 },
       { id := 2, item_id := 1, movement_type := "PURCHASE", quantity := 2,
         party := "", note := "", ts := 2 },
       { id := 3, item_id := 1, movement_type := "PURCHASE", quantity := 3,
         party := "", note := "", ts := 3 }],
    next_item_id := 2, next_movement_id := 4 }

/-- C7 counterexample: the query `ORDER BY sm.ts DESC` has no secondary
sort key, so ties on `ts` are NOT broken by id descending.  With two
movements of equal timestamp, the returned order keeps the scan order
[id 1, id 2] — not the claimed id-descending [id 2, id 1]. -/
theorem get_stock_movements_tie_order_cex :
    (tie_db.movements.map Movement.ts = [5, 5]) ∧
    ((get_stock_movements tie_db 10).map MovementRow.id = [1, 2]) ∧
    ¬ ((get_stock_movements tie_db 10).map MovementRow.id = [2, 1]) := by
  decide

/-- C7 amended: `get_stock_movements` returns rows ordered by timestamp
descending (rows with equal timestamps in no specified order — the query
has no secondary sort key), and for movements M1, M2, M3 inserted in that
order with strictly increasing timestamps it returns [M3, M2, M1]. -/
theorem get_stock_movements_sorted_desc :
    (∀ (db : DB) (limit : Nat),
        (get_stock_movements db limit).Pairwise ts_ge) ∧
    (get_stock_movements ordered_db 10).map MovementRow.id = [3, 2, 1] := by
  refine ⟨fun db limit => ?_, by decide⟩
  unfold get_stock_movements
  exact List.Pairwise.sublist (List.take_sublist _ _)
    (List.sorted_insertionSort ts_ge (join_items db))

/-- Movements whose `item_id` matches no surviving item contribute nothing
to the join, so the joined rows coincide with the joined rows of the
ledger with those movements filtered away. -/
theorem filterMap_join_drop_unmatched {β : Type} (items : List Item)
    (iid : Nat) (F : Movement → Item → β)
    (hitems : ∀ it ∈ items, (it.id == iid) = false) :
    ∀ ms : List Movement,
      ms.filterMap
          (fun m => (items.find? (fun it => it.id == m.item_id)).map (F m)) =
        (ms.filter (fun m => m.item_id != iid)).filterMap
          (fun m => (items.find? (fun it => it.id == m.item_id)).map (F m)) := by
  intro ms
  induction ms with
  | nil => rfl
  | cons m ms ih =>
    by_cases hm : (m.item_id == iid) = true
    · have hid : m.item_id = iid := by simpa using hm
      have hnone : items.find? (fun it => it.id == m.item_id) = none := by
        rw [List.find?_eq_none]
        intro it hit
        rw [hid]
        simp [hitems it hit]
      have hbne : (m.item_id != iid) = false := by simp [hid]
      rw [List.filterMap_cons, hnone, List.filter_cons]
      simp [hbne, ih]
    · have hne : m.item_id ≠ iid := by simpa using hm
      have hbne : (m.item_id != iid) = true := by simpa using hne
      rw [List.filter_cons]
      simp only [hbne, if_true]
      rw [List.filterMap_cons, List.filterMap_cons]
      cases hfo : items.find? (fun it => it.id == m.item_id) with
      | none => simpa using ih
      | some it => simp [ih]

/-- C9: `delete_item_record` leaves the `stock_movements` table untouched,
yet the deleted item's movements are silently omitted from every
subsequent `get_stock_movements` result: the history of the pruned state
equals the history computed as if those movements had been filtered out
of the ledger (the inner join drops them). -/
theorem get_stock_movements_omits_deleted (db : DB) (item_id : Nat)
    (limit : Nat) :
    (delete_item_record db item_id).movements = db.movements ∧
    get_stock_movements (delete_item_record db item_id) limit =
      get_stock_movements
        { delete_item_record db item_id with
            movements := db.movements.filter (fun m => m.item_id != item_id) }
        limit := by
  constructor
  · rfl
  · unfold get_stock_movements
    have hitems : ∀ it ∈ (delete_item_record db item_id).items,
        (it.id == item_id) = false := by
      intro it hit
      unfold delete_item_record at hit
      simp only [List.mem_filter] at hit
      have hne : it.id ≠ item_id := by simpa using hit.2
      simpa using hne
    have hjoin : join_items (delete_item_record db item_id) =
        join_items
          { delete_item_record db item_id with
              movements := db.movements.filter (fun m => m.item_id != item_id) } := by
      unfold join_items
      exact filterMap_join_drop_unmatched _ item_id _ hitems db.movements
    rw [hjoin]

/-! ### Failure characterization of adjust_stock -/

/-- Updating the found item's quantity to its own current value is the
identity on the items table, provided ids are unique (PRIMARY KEY). -/
theorem map_update_found_self (items : List Item) (item_id : Nat)
    (row : Item) (q : Int)
    (hfind : items.find? (fun it => it.id == item_id) = some row)
    (hnd : (items.map Item.id).Nodup) (hq : q = row.quantity) :
    items.map (fun it =>
        if it.id == item_id then { it with quantity := q } else it) = items := by
  have hmem : row ∈ items := List.mem_of_find?_eq_some hfind
  have hrow : row.id = item_id := by simpa using List.find?_some hfind
  have hcong : ∀ a ∈ items,
      (if a.id == item_id then { a with quantity := q } else a) = id a := by
    intro a ha
    by_cases h : (a.id == item_id) = true
    · have haid : a.id = item_id := by simpa using h
      have haeq : a = row :=
        List.inj_on_of_nodup_map hnd ha hmem (by rw [haid, hrow])
      subst haeq
      simp [h, hq]
    · simp [h]
  rw [List.map_congr_left hcong, List.map_id]

/-- C10: `adjust_stock` fails exactly when the item id does not resolve or
the item's quantity plus the delta is negative; in particular, a delta of
0 on an existing item (with its stored non-negative quantity and unique
ids) succeeds, appends a movement with delta 0, and leaves the items
table — in particular every quantity — unchanged. -/
theorem adjust_stock_failure_characterization :
    (∀ (db : DB) (item_id : Nat) (delta_qty : Int)
        (movement_type party note : String) (ts : Nat),
        (adjust_stock db item_id delta_qty movement_type party note ts).2.1 = false ↔
          match db.items.find? (fun it => it.id == item_id) with
          | none => True
          | some row => row.quantity + delta_qty < 0) ∧
    (∀ (db : DB) (item_id : Nat) (movement_type party note : String)
        (ts : Nat) (row : Item),
        db.items.find? (fun it => it.id == item_id) = some row →
        0 ≤ row.quantity →
        (db.items.map Item.id).Nodup →
        adjust_stock db item_id 0 movement_type party note ts =
          ({ db with
              movements := db.movements ++
                [{ id := db.next_movement_id, item_id := item_id,
                   movement_type := movement_type, quantity := 0,
                   party := party, note := note, ts := ts }],
              next_movement_id := db.next_movement_id + 1 },
            true, "Stock updated")) := by
  constructor
  · intro db item_id delta_qty movement_type party note ts
    unfold adjust_stock
    cases hf : db.items.find? (fun it => it.id == item_id) with
    | none => simp
    | some row =>
      by_cases h : row.quantity + delta_qty < 0
      · simp [h]
      · simp [h, log_stock_movement]
  · intro db item_id movement_type party note ts row hfind hpos hnd
    have hitems := map_update_found_self db.items item_id row
      (row.quantity + 0) hfind hnd (by omega)
    unfold adjust_stock
    rw [hfind]
    have hnotneg : ¬ (row.quantity + 0 < 0) := by omega
    simp only [log_stock_movement]
    rw [if_neg hnotneg, hitems]

/-- C10 witness: on `sample_db` (item id 1, quantity 10, unique ids) a
zero-delta adjustment succeeds, appends a movement with delta 0, and
leaves the items table unchanged. -/
theorem adjust_stock_failure_characterization_witness :
    sample_db.items.find? (fun it => it.id == 1) = some sample_item ∧
    (0 : Int) ≤ sample_item.quantity ∧
    (sample_db.items.map Item.id).Nodup ∧
    adjust_stock sample_db 1 0 "ADJUSTMENT" "" "stock check" 3 =
      ({ sample_db with
          movements := sample_db.movements ++
            [{ id := 2, item_id := 1, movement_type := "ADJUSTMENT",
               quantity := 0, party := "", note := "stock check", ts := 3 }],
          next_movement_id := 3 }, true, "Stock updated") :=
  ⟨by decide, by decide, by decide,
    adjust_stock_failure_characterization.2 sample_db 1 "ADJUSTMENT" ""
      "stock check" 3 sample_item (by decide) (by decide) (by decide)⟩

/-! ### The quantity/ledger-sum invariant over create and adjust sequences -/

/-- The induction invariant: the quantity/ledger-sum property together
with the bookkeeping facts about primary keys. -/
def good_db (db : DB) : Prop := quantity_invariant db ∧ ids_fresh db

/-- The item row inserted by a successful `create_item`. -/
def new_item_row (db : DB) (item_code name category : String)
    (unit_price : Int) (min_stock quantity : Nat) (description : String) :
    Item :=
  { id := db.next_item_id, item_code := item_code, name := name,
    category := category, unit_price := unit_price,
    min_stock := (min_stock : Int), quantity := (quantity : Int),
    description := description }

/-- Appending one movement adds its delta to the ledger sum of its own
item and nothing to any other item's sum. -/
theorem ledger_sum_append (ms : List Movement) (m : Movement) (i : Nat) :
    ledger_sum (ms ++ [m]) i =
      ledger_sum ms i + (if (m.item_id == i) = true then m.quantity else 0) := by
  unfold ledger_sum
  rw [List.filter_append, List.map_append, List.sum_append]
  by_cases h : (m.item_id == i) = true
  · simp [List.filter_cons, h]
  · simp [List.filter_cons, h]

/-- An item id referenced by no movement has ledger sum 0. -/
theorem ledger_sum_of_fresh (ms : List Movement) (i : Nat)
    (h : ∀ m ∈ ms, m.item_id ≠ i) : ledger_sum ms i = 0 := by
  unfold ledger_sum
  have hf : ms.filter (fun m => m.item_id == i) = [] := by
    rw [List.filter_eq_nil_iff]
    intro m hm
    simpa using h m hm
  rw [hf]
  rfl

/-- On the fresh-code, non-blank path, the create flow inserts the new
item row and, when the initial quantity is positive, appends the INITIAL
movement for it. -/
theorem create_flow_eq_of_fresh (db : DB) (item_code name category : String)
    (unit_price : Int) (min_stock quantity : Nat) (description : String)
    (ts : Nat)
    (hblank : ¬ ((item_code == "" || name == "") = true))
    (hdup : ¬ (db.items.any (fun it => it.item_code == item_code) = true)) :
    create_flow db item_code name category unit_price min_stock quantity
        description ts =
      (if 0 < quantity then
        { db with
            items := db.items ++
              [new_item_row db item_code name category unit_price min_stock
                quantity description],
            movements := db.movements ++
              [{ id := db.next_movement_id, item_id := db.next_item_id,
                 movement_type := "INITIAL", quantity := (quantity : Int),
                 party := "SYSTEM", note := "Initial stock", ts := ts }],
            next_item_id := db.next_item_id + 1,
            next_movement_id := db.next_movement_id + 1 }
      else
        { db with
            items := db.items ++
              [new_item_row db item_code name category unit_price min_stock
                quantity description],
            next_item_id := db.next_item_id + 1 }) := by
  have hall : ∀ it ∈ db.items, ¬ ((it.item_code == item_code) = true) := by
    intro it hit hx
    exact hdup (List.any_eq_true.mpr ⟨it, hit, hx⟩)
  have hfind : (db.items ++
      [new_item_row db item_code name category unit_price min_stock quantity
        description]).find? (fun it => it.item_code == item_code) =
      some (new_item_row db item_code name category unit_price min_stock
        quantity description) := by
    rw [List.find?_append, List.find?_eq_none.mpr hall]
    simp [new_item_row]
  unfold create_flow
  rw [if_neg hblank]
  unfold create_item get_items
  rw [if_neg hdup]
  simp only [new_item_row] at hfind
  simp only [hfind, log_stock_movement, new_item_row, eq_self_iff_true, if_true]

/-- The create flow preserves the invariant and the id bookkeeping. -/
theorem create_flow_preserves_good (db : DB) (item_code name category : String)
    (unit_price : Int) (min_stock quantity : Nat) (description : String)
    (ts : Nat) (hg : good_db db) :
    good_db (create_flow db item_code name category unit_price min_stock
      quantity description ts) := by
  obtain ⟨hinv, hilt, hmlt, hnd⟩ := hg
  by_cases hblank : (item_code == "" || name == "") = true
  · unfold create_flow
    rw [if_pos hblank]
    exact ⟨hinv, hilt, hmlt, hnd⟩
  · by_cases hdup : db.items.any (fun it => it.item_code == item_code) = true
    · unfold create_flow create_item
      rw [if_neg hblank]
      simp only [if_pos hdup]
      exact ⟨hinv, hilt, hmlt, hnd⟩
    · rw [create_flow_eq_of_fresh db item_code name category unit_price
        min_stock quantity description ts hblank hdup]
      have hzero : ledger_sum db.movements db.next_item_id = 0 := by
        apply ledger_sum_of_fresh
        intro m hm
        have := hmlt m hm
        omega
      by_cases hq : 0 < quantity
      · rw [if_pos hq]
        refine ⟨?_, ?_, ?_, ?_⟩
        · intro it' hit'
          rw [List.mem_append] at hit'
          cases hit' with
          | inl hold =>
            have hne : db.next_item_id ≠ it'.id := by
              have := hilt it' hold
              omega
            rw [ledger_sum_append]
            simp [hne, hinv it' hold]
          | inr hnew =>
            rw [List.mem_singleton] at hnew
            subst hnew
            rw [ledger_sum_append]
            simp [new_item_row, hzero]
        · intro it' hit'
          rw [List.mem_append] at hit'
          show it'.id < db.next_item_id + 1
          cases hit' with
          | inl hold =>
            have := hilt it' hold
            omega
          | inr hnew =>
            rw [List.mem_singleton] at hnew
            subst hnew
            simp [new_item_row]
        · intro m hm
          rw [List.mem_append] at hm
          show m.item_id < db.next_item_id + 1
          cases hm with
          | inl hold =>
            have := hmlt m hold
            omega
          | inr hnew =>
            rw [List.mem_singleton] at hnew
            subst hnew
            simp
        · rw [List.map_append, List.nodup_append]
          refine ⟨hnd, by simp, ?_⟩
          intro x hx hy
          simp [new_item_row] at hy
          subst hy
          rw [List.mem_map] at hx
          obtain ⟨a, ha, haid⟩ := hx
          have := hilt a ha
          omega
      · rw [if_neg hq]
        have hq0 : quantity = 0 := by omega
        subst hq0
        refine ⟨?_, ?_, ?_, ?_⟩
        · intro it' hit'
          rw [List.mem_append] at hit'
          cases hit' with
          | inl hold => exact hinv it' hold
          | inr hnew =>
            rw [List.mem_singleton] at hnew
            subst hnew
            simp [new_item_row, hzero]
        · intro it' hit'
          rw [List.mem_append] at hit'
          show it'.id < db.next_item_id + 1
          cases hit' with
          | inl hold =>
            have := hilt it' hold
            omega
          | inr hnew =>
            rw [List.mem_singleton] at hnew
            subst hnew
            simp [new_item_row]
        · intro m hm
          have := hmlt m hm
          show m.item_id < db.next_item_id + 1
          omega
        · rw [List.map_append, List.nodup_append]
          refine ⟨hnd, by simp, ?_⟩
          intro x hx hy
          simp [new_item_row] at hy
          subst hy
          rw [List.mem_map] at hx
          obtain ⟨a, ha, haid⟩ := hx
          have := hilt a ha
          omega

/-- On the found, non-negative path, `adjust_stock` updates the found
item's quantity and appends the movement. -/
theorem adjust_stock_eq_of_found (db : DB) (item_id : Nat) (delta_qty : Int)
    (movement_type party note : String) (ts : Nat) (row : Item)
    (hfind : db.items.find? (fun it => it.id == item_id) = some row)
    (hok : ¬ (row.quantity + delta_qty < 0)) :
    (adjust_stock db item_id delta_qty movement_type party note ts).1 =
      { db with
          items := db.items.map (fun it =>
            if it.id == item_id then
              { it with quantity := row.quantity + delta_qty }
            else it),
          movements := db.movements ++
            [{ id := db.next_movement_id, item_id := item_id,
               movement_type := movement_type, quantity := delta_qty,
               party := party, note := note, ts := ts }],
          next_movement_id := db.next_movement_id + 1 } := by
  unfold adjust_stock
  rw [hfind]
  simp only [log_stock_movement]
  rw [if_neg hok]

/-- A call of `adjust_stock` preserves the invariant and the id
bookkeeping (whether it succeeds or fails). -/
theorem adjust_stock_preserves_good (db : DB) (item_id : Nat)
    (delta_qty : Int) (movement_type party note : String) (ts : Nat)
    (hg : good_db db) :
    good_db (adjust_stock db item_id delta_qty movement_type party note ts).1 := by
  obtain ⟨hinv, hilt, hmlt, hnd⟩ := hg
  cases hfind : db.items.find? (fun it => it.id == item_id) with
  | none =>
    unfold adjust_stock
    rw [hfind]
    exact ⟨hinv, hilt, hmlt, hnd⟩
  | some row =>
    by_cases hneg : row.quantity + delta_qty < 0
    · unfold adjust_stock
      rw [hfind]
      simp only [if_pos hneg]
      exact ⟨hinv, hilt, hmlt, hnd⟩
    · rw [adjust_stock_eq_of_found db item_id delta_qty movement_type party
        note ts row hfind hneg]
      have hrowmem : row ∈ db.items := List.mem_of_find?_eq_some hfind
      have hrowid : row.id = item_id := by simpa using List.find?_some hfind
      refine ⟨?_, ?_, ?_, ?_⟩
      · intro it' hit'
        rw [List.mem_map] at hit'
        obtain ⟨a, ha, rfl⟩ := hit'
        by_cases hid : (a.id == item_id) = true
        · have haid : a.id = item_id := by simpa using hid
          have haeq : a = row :=
            List.inj_on_of_nodup_map hnd ha hrowmem (by rw [haid, hrowid])
          subst haeq
          rw [ledger_sum_append]
          have hbeq : (item_id == a.id) = true := by simp [haid]
          simp [hid, hbeq, ← hinv a ha]
        · have hne : item_id ≠ a.id := by
            have h1 : a.id ≠ item_id := by simpa using hid
            exact fun h => h1 h.symm
          rw [ledger_sum_append]
          simp [hid, hne, hinv a ha]
      · intro it' hit'
        rw [List.mem_map] at hit'
        obtain ⟨a, ha, rfl⟩ := hit'
        by_cases hid : (a.id == item_id) = true
        · simp only [hid, if_true]
          exact hilt a ha
        · simp only [hid, if_false]
          exact hilt a ha
      · intro m hm
        rw [List.mem_append] at hm
        cases hm with
        | inl hold => exact hmlt m hold
        | inr hnew =>
          rw [List.mem_singleton] at hnew
          subst hnew
          show item_id < db.next_item_id
          rw [← hrowid]
          exact hilt row hrowmem
      · have hids : (db.items.map (fun it =>
            if it.id == item_id then
              { it with quantity := row.quantity + delta_qty }
            else it)).map Item.id = db.items.map Item.id := by
          rw [List.map_map]
          apply List.map_congr_left
          intro a ha
          by_cases h : a.id = item_id
          · simp [h]
          · simp [h]
        rw [hids]
        exact hnd

/-- Every single operation of the create/adjust fragment preserves the
invariant and bookkeeping. -/
theorem apply_op_preserves_good (db : DB) (op : Op) (hg : good_db db) :
    good_db (apply_op db op) := by
  cases op with
  | create item_code name category unit_price min_stock quantity description ts =>
    exact create_flow_preserves_good db item_code name category unit_price
      min_stock quantity description ts hg
  | adjust item_id delta_qty movement_type party note ts =>
    exact adjust_stock_preserves_good db item_id delta_qty movement_type
      party note ts hg

/-- Folding any operation list preserves the invariant and bookkeeping. -/
theorem foldl_apply_op_preserves_good (ops : List Op) :
    ∀ db : DB, good_db db → good_db (ops.foldl apply_op db) := by
  induction ops with
  | nil => exact fun db h => h
  | cons op ops ih =>
    intro db h
    exact ih _ (apply_op_preserves_good db op h)

/-- The empty database satisfies the invariant and the bookkeeping. -/
theorem good_db_empty : good_db empty_db := by
  refine ⟨?_, ?_, ?_, ?_⟩ <;> simp [quantity_invariant, ids_fresh, empty_db]

/-- C1: after any sequence of create and adjust operations starting from
the empty database — hence after each operation of any such sequence —
every item's stored quantity equals the sum of the signed deltas of the
movements referencing it. -/
theorem create_adjust_sequences_preserve_invariant (ops : List Op) :
    quantity_invariant (run_ops ops) :=
  (foldl_apply_op_preserves_good ops empty_db good_db_empty).1
